import Mathlib

/-!
Verification development for the mock customer-service backend in
`common/business_logic.py` (utility-billing voice/chat agent).

Modelling conventions (shallow embedding):

* Python floats are modelled as exact rationals; Python `round(x, n)` is
  modelled as exact round-half-to-even at `n` decimal places (`pyRound`).
* `datetime` values are modelled as rationals measured in days
  (`datetime.now()` becomes a parameter `now : ℚ`); `timedelta(days=d)` is
  addition of `d`, `timedelta(hours=1)` is addition of `1/24`.  ISO strings
  stored for dates are represented by the underlying datetime value, since
  `isoformat` is injective and order-preserving on datetimes.
* The Python `random` module is modelled by an `Oracle` of arbitrary functions,
  one per call site: `random.randint(a, b)` becomes `a + k % (b - a + 1)`,
  `random.uniform(a, b)` becomes `a + Int.fract u * (b - a)` (a value in
  `[a, b)`), and `random.choice(l)` becomes `l.getD (k % l.length) default`.
* Python dicts with a fixed key set become structures.  The generated
  top-level dict has no "appointments" key, so `MockData.appointments` is an
  `Option`, `none` meaning the key is absent; reading the key when absent is
  the `Except.error` branch (Python `KeyError`).
* The async operations have no real concurrency (a fixed artificial sleep);
  each is embedded as a pure state transformer `MockData → result × MockData`.
* `save_mock_data` / `cleanup_mock_data_files` (file IO) and the
  `sample_data` display block are not modelled; no claim concerns them.
  The `sample_data` block additionally requires at least 3 customers
  (`random.sample(customers, 3)`); it is display-only.
-/

namespace BusinessLogic

/-! ## Decimal rendering of integers (Python str / format specs) -/

/-- The decimal digit character for `d < 10` (as in Python string formatting). -/
def digitChar : Nat → Char
  | 0 => '0' | 1 => '1' | 2 => '2' | 3 => '3' | 4 => '4'
  | 5 => '5' | 6 => '6' | 7 => '7' | 8 => '8' | 9 => '9'
  | _ => '*'

/-- Fuel-driven digit expansion; `n + 1` fuel always suffices. -/
def decDigitsAux : Nat → Nat → List Char
  | 0, _ => []
  | fuel + 1, n =>
    if n < 10 then [digitChar n]
    else decDigitsAux fuel (n / 10) ++ [digitChar (n % 10)]

/-- Decimal digit list of a natural number, most significant first
(Python `str(n)` for nonnegative `n`). -/
def decDigits (n : Nat) : List Char := decDigitsAux (n + 1) n

/-- Python `str(n)` for a natural number. -/
def natStr (n : Nat) : String := ⟨decDigits n⟩

/-- Left-pad a digit list with zeros to width `w` (format spec `0wd`). -/
def padZeros (w : Nat) (cs : List Char) : List Char :=
  List.replicate (w - cs.length) '0' ++ cs

/-- Python `f"{n:0wd}"` for a natural number `n` and width `w`. -/
def pyFormat (n w : Nat) : String := ⟨padZeros w (decDigits n)⟩

/-- Numeric value of a digit string (decoder used to prove injectivity of
the decimal renderings). -/
def digitsVal (cs : List Char) : Nat :=
  cs.foldl (fun a c => 10 * a + (c.toNat - 48)) 0

/-! ## Python round (round-half-to-even on exact rationals) -/

/-- Round-half-to-even of a rational to an integer (idealized semantics of
Python rounding of floats). -/
def rhe (q : ℚ) : ℤ :=
  if Int.fract q < 1 / 2 then ⌊q⌋
  else if 1 / 2 < Int.fract q then ⌊q⌋ + 1
  else if ⌊q⌋ % 2 = 0 then ⌊q⌋ else ⌊q⌋ + 1

/-- Python `round(q, n)` on exact rationals. -/
def pyRound (q : ℚ) (n : Nat) : ℚ := (rhe (q * 10 ^ n) : ℚ) / 10 ^ n

/-! ## Data model (one structure per Python record dict) -/

/-- A customer record (loop body at the top of `generate_mock_data`). -/
structure Customer where
  id : String
  name : String
  phone : String
  email : String
  address : String
  joined_date : ℚ
  preferred_language : String
  account_status : String
deriving DecidableEq, Inhabited

/-- An energy contract record. -/
structure Contract where
  id : String
  customer_id : String
  customer_name : String
  start_date : ℚ
  end_date : ℚ
  term_months : Nat
  plan_type : String
  rate : ℚ
  status : String
  auto_renewal : Bool
  green_energy_percentage : Nat
deriving DecidableEq, Inhabited

/-- The nested `charges` dict of a bill. -/
structure Charges where
  energy_charge : ℚ
  market_support_fee : ℚ
  power_grid_charge : ℚ
  transmission_loss_charge : ℚ
  emc_charge : ℚ
  pso_charge : ℚ
  subtotal : ℚ
  gst : ℚ
deriving DecidableEq, Inhabited

/-- A bill record of the billing history. -/
structure Bill where
  id : String
  contract_id : String
  customer_id : String
  bill_date : ℚ
  due_date : ℚ
  billing_period_start : ℚ
  billing_period_end : ℚ
  usage_kwh : ℚ
  charges : Charges
  total_amount : ℚ
  status : String
  payment_due : ℚ
deriving DecidableEq, Inhabited

/-- A daily usage record; `peak_kwh` / `off_peak_kwh` are `None` on
non-peak plans (and for a zero peak value, by Python truthiness). -/
structure UsageRecord where
  customer_id : String
  contract_id : String
  date : ℚ
  total_kwh : ℚ
  peak_kwh : Option ℚ
  off_peak_kwh : Option ℚ
  carbon_offset_kg : ℚ
deriving DecidableEq, Inhabited

/-- A payment method; the credit-card and GIRO variants populate different
keys, absent keys are `none`. -/
structure PaymentMethod where
  id : String
  customer_id : String
  type : String
  card_type : Option String
  last_four : Option String
  expiry_date : Option String
  bank_name : Option String
  account_last_four : Option String
  is_default : Bool
deriving DecidableEq

/-- An appointment created by `schedule_appointment`; `date` keeps the raw
string argument. -/
structure Appointment where
  id : String
  customer_id : String
  customer_name : String
  date : String
  service : String
  status : String
  location : String
  notes : String
deriving DecidableEq

/-- The top-level `MOCK_DATA` dict.  `generate_mock_data` never writes an
"appointments" key, hence the `Option`: `none` models the absent key
(`sample_data`, which is display-only, is not modelled). -/
structure MockData where
  customers : List Customer
  contracts : List Contract
  billing_history : List Bill
  usage_data : List UsageRecord
  payment_methods : List PaymentMethod
  appointments : Option (List Appointment)
deriving DecidableEq

/-! ## Randomness oracle

Each field stands for one call site of the Python `random` module, indexed by
the surrounding loop counters.  `randint`, `uniform` and `choice` are
interpreted by `pyRandint`, `pyUniform` and `List.getD` below. -/

structure Oracle where
  addrBlock : Nat → Nat
  addrFloor : Nat → Nat
  addrUnit : Nat → Nat
  addrPostal : Nat → Nat
  joinedDays : Nat → Nat
  langPick : Nat → Nat
  contractCustomer : Nat → Nat
  planPick : Nat → Nat
  startDays : Nat → Nat
  termPick : Nat → Nat
  rateU : Nat → ℚ
  greenPick : Nat → Nat
  baseUsageU : Nat → Nat → ℚ
  dailyU : Nat → Nat → Nat → ℚ
  dailyU2 : Nat → Nat → Nat → ℚ
  payPick : Nat → Nat
  cardPick : Nat → Nat
  lastFour : Nat → Nat
  expiryM : Nat → Nat
  expiryY : Nat → Nat
  bankPick : Nat → Nat
  acctLastFour : Nat → Nat

/-- `random.randint(lo, hi)` (inclusive) driven by an oracle value `k`. -/
def pyRandint (lo hi k : Nat) : Nat := lo + k % (hi - lo + 1)

/-- `random.uniform(a, b)` driven by an oracle value `u`: a value in `[a, b)`. -/
def pyUniform (a b u : ℚ) : ℚ := a + Int.fract u * (b - a)

/-- Fallback element for `random.choice` on `customers` (Python would raise
`IndexError` on an empty population; theorems about contracts assume a
positive customer count, so this default is never selected there). -/
def dfltCustomer : Customer :=
  { id := "", name := "", phone := "", email := "", address := "",
    joined_date := 0, preferred_language := "", account_status := "" }

/-! ## The generator (`generate_mock_data`) -/

/-- One customer record: loop `for i in range(MOCK_DATA_SIZE["customers"])`. -/
def mkCustomer (o : Oracle) (now : ℚ) (i : Nat) : Customer :=
  { id := "CUST" ++ pyFormat i 4,
    name := "Customer " ++ natStr i,
    phone := "+65" ++ pyFormat i 8,
    email := "customer" ++ natStr i ++ "@example.com",
    address := "Block " ++ natStr (pyRandint 1 999 (o.addrBlock i)) ++ ", #"
      ++ natStr (pyRandint 1 20 (o.addrFloor i)) ++ "-"
      ++ natStr (pyRandint 1 99 (o.addrUnit i)) ++ ", Singapore "
      ++ natStr (pyRandint 100000 999999 (o.addrPostal i)),
    joined_date := now - (pyRandint 0 730 (o.joinedDays i) : ℚ),
    preferred_language := ["English", "Mandarin", "Malay", "Tamil"].getD (o.langPick i % 4) "",
    account_status := "Active" }

/-- One contract record: loop `for i in range(MOCK_DATA_SIZE["orders"])`. -/
def mkContract (o : Oracle) (now : ℚ) (customers : List Customer) (i : Nat) : Contract :=
  let customer := customers.getD (o.contractCustomer i % customers.length) dfltCustomer
  let plan_types := ["Fixed Price Plan", "Discount Off Tariff", "Peak/Off-Peak Plan",
    "Green Energy Plan"]
  let selected_plan := plan_types.getD (o.planPick i % 4) ""
  let start_date := now - (pyRandint 30 365 (o.startDays i) : ℚ)
  let term_months : Nat := [12, 24].getD (o.termPick i % 2) 0
  { id := "CONT" ++ pyFormat i 4,
    customer_id := customer.id,
    customer_name := customer.name,
    start_date := start_date,
    end_date := start_date + (term_months : ℚ) * 30,
    term_months := term_months,
    plan_type := selected_plan,
    rate := pyRound (pyUniform (18 / 100) (30 / 100) (o.rateU i)) 4,
    status := "Active",
    auto_renewal := true,
    green_energy_percentage :=
      if selected_plan = "Green Energy Plan" then 100
      else [0, 20, 50].getD (o.greenPick i % 3) 0 }

/-- One daily usage entry (inner loop `for day in range(30)`). -/
def mkDailyUsage (o : Oracle) (c : Contract) (i month day : Nat)
    (monthly_usage usage_date : ℚ) : UsageRecord :=
  if c.plan_type = "Peak/Off-Peak Plan" then
    let daily_peak := (monthly_usage / 30) * (7 / 10)
      * pyUniform (9 / 10) (11 / 10) (o.dailyU i month day)
    let daily_off_peak := (monthly_usage / 30) * (3 / 10)
      * pyUniform (9 / 10) (11 / 10) (o.dailyU2 i month day)
    let daily_total := daily_peak + daily_off_peak
    { customer_id := c.customer_id,
      contract_id := c.id,
      date := usage_date,
      total_kwh := pyRound daily_total 2,
      peak_kwh := if daily_peak = 0 then none else some (pyRound daily_peak 2),
      off_peak_kwh := if daily_off_peak = 0 then none else some (pyRound daily_off_peak 2),
      carbon_offset_kg :=
        pyRound (daily_total * (4 / 10) * ((c.green_energy_percentage : ℚ) / 100)) 2 }
  else
    let daily_total := (monthly_usage / 30) * pyUniform (9 / 10) (11 / 10) (o.dailyU i month day)
    { customer_id := c.customer_id,
      contract_id := c.id,
      date := usage_date,
      total_kwh := pyRound daily_total 2,
      peak_kwh := none,
      off_peak_kwh := none,
      carbon_offset_kg :=
        pyRound (daily_total * (4 / 10) * ((c.green_energy_percentage : ℚ) / 100)) 2 }

/-- The bill record built inside the `for month in range(2)` body, given the
monthly usage figure and the bill date.  `billCount` is `len(billing_history)`
at bill creation, used for the bill id. -/
def mkBill (c : Contract) (billCount month : Nat)
    (monthly_usage bill_date : ℚ) : Bill :=
  let energy_charge := monthly_usage * c.rate
  let market_support_fee : ℚ := 439 / 100
  let power_grid_charge := monthly_usage * (484 / 10000)
  let transmission_loss_charge := energy_charge * (4 / 1000)
  let emc_charge := monthly_usage * (13 / 10000)
  let pso_charge := monthly_usage * (7 / 10000)
  let subtotal := energy_charge + market_support_fee + power_grid_charge
    + transmission_loss_charge + emc_charge + pso_charge
  let gst := subtotal * (8 / 100)
  let total_amount := subtotal + gst
  { id := "BILL" ++ pyFormat billCount 4,
    contract_id := c.id,
    customer_id := c.customer_id,
    bill_date := bill_date,
    due_date := bill_date + 21,
    billing_period_start := bill_date - 30,
    billing_period_end := bill_date,
    usage_kwh := pyRound monthly_usage 2,
    charges :=
      { energy_charge := pyRound energy_charge 2,
        market_support_fee := pyRound market_support_fee 2,
        power_grid_charge := pyRound power_grid_charge 2,
        transmission_loss_charge := pyRound transmission_loss_charge 2,
        emc_charge := pyRound emc_charge 2,
        pso_charge := pyRound pso_charge 2,
        subtotal := pyRound subtotal 2,
        gst := pyRound gst 2 },
    total_amount := pyRound total_amount 2,
    status := if month > 0 then "Paid" else "Unpaid",
    payment_due := bill_date + 21 }

/-- The Python `monthly_usage = base_usage * seasonal_factor` figure. -/
def monthlyUsage (o : Oracle) (i month : Nat) : ℚ :=
  pyUniform 300 800 (o.baseUsageU i month) * (1 + (15 / 100) * ((month % 2 : Nat) : ℚ))

/-- One iteration of `for month in range(2)`: the bill and its 30 usage rows,
or `none` when the `bill_date > start_date` guard fails. -/
def mkMonth (o : Oracle) (now : ℚ) (c : Contract) (i billCount month : Nat) :
    Option (Bill × List UsageRecord) :=
  let bill_date := now - 30 * (month : ℚ)
  if c.start_date < bill_date then
    let monthly_usage := monthlyUsage o i month
    some (mkBill c billCount month monthly_usage bill_date,
      (List.range 30).map fun day =>
        mkDailyUsage o c i month day monthly_usage (bill_date - (day : ℚ)))
  else none

/-- Accumulator for the contracts / bills / usage loop. -/
structure GenAcc where
  contracts : List Contract
  bills : List Bill
  usage : List UsageRecord

def optBill : Option (Bill × List UsageRecord) → List Bill
  | some (b, _) => [b]
  | none => []

def optUsage : Option (Bill × List UsageRecord) → List UsageRecord
  | some (_, u) => u
  | none => []

/-- Body of the contracts loop: appends the contract, then the month-0 and
month-1 bills (when generated) and their usage rows. -/
def genStep (o : Oracle) (now : ℚ) (customers : List Customer)
    (acc : GenAcc) (i : Nat) : GenAcc :=
  let c := mkContract o now customers i
  let r0 := mkMonth o now c i acc.bills.length 0
  let n1 := acc.bills.length + (optBill r0).length
  let r1 := mkMonth o now c i n1 1
  { contracts := acc.contracts ++ [c],
    bills := acc.bills ++ optBill r0 ++ optBill r1,
    usage := acc.usage ++ optUsage r0 ++ optUsage r1 }

/-- One payment method per customer; `k` is the loop position, which equals
`len(payment_methods)` at creation time. -/
def mkPayment (o : Oracle) (k : Nat) (customer : Customer) : PaymentMethod :=
  let payment_type := ["GIRO", "Credit Card"].getD (o.payPick k % 2) ""
  if payment_type = "Credit Card" then
    { id := "PAY" ++ pyFormat k 4,
      customer_id := customer.id,
      type := payment_type,
      card_type := some (["Visa", "MasterCard"].getD (o.cardPick k % 2) ""),
      last_four := some (natStr (pyRandint 1000 9999 (o.lastFour k))),
      expiry_date := some (natStr (pyRandint 1 12 (o.expiryM k)) ++ "/"
        ++ natStr (pyRandint 23 28 (o.expiryY k))),
      bank_name := none,
      account_last_four := none,
      is_default := true }
  else
    { id := "PAY" ++ pyFormat k 4,
      customer_id := customer.id,
      type := payment_type,
      card_type := none,
      last_four := none,
      expiry_date := none,
      bank_name := some (["DBS", "OCBC", "UOB"].getD (o.bankPick k % 3) ""),
      account_last_four := some (natStr (pyRandint 1000 9999 (o.acctLastFour k))),
      is_default := true }

/-- The generated customers list. -/
def genCustomers (o : Oracle) (now : ℚ) (nCustomers : Nat) : List Customer :=
  (List.range nCustomers).map (mkCustomer o now)

/-- The contracts / bills / usage built by the contracts loop. -/
def genAcc (o : Oracle) (now : ℚ) (nCustomers nOrders : Nat) : GenAcc :=
  (List.range nOrders).foldl (genStep o now (genCustomers o now nCustomers)) ⟨[], [], []⟩

/-- `generate_mock_data`, parameterized by the randomness oracle, the clock
and the two configured sizes (`MOCK_DATA_SIZE["customers"]` and
`MOCK_DATA_SIZE["orders"]`, which live outside this file).  The returned
dict carries no "appointments" key (`appointments := none`). -/
def generate_mock_data (o : Oracle) (now : ℚ) (nCustomers nOrders : Nat) : MockData :=
  let customers := genCustomers o now nCustomers
  let acc := genAcc o now nCustomers nOrders
  { customers := customers,
    contracts := acc.contracts,
    billing_history := acc.bills,
    usage_data := acc.usage,
    payment_methods :=
      (List.range customers.length).map fun k => mkPayment o k (customers.getD k dfltCustomer),
    appointments := none }

/-! ## Lookup / mutation operations

Each async operation is a state transformer on `MockData` (the artificial
delay has no observable effect).  A raised Python exception (here only
`KeyError` on the absent "appointments" key) is `Except.error`; the error
*mappings* `{"error": "..."}` the code returns normally are ordinary values. -/

/-- The `KeyError` raised by reading the absent "appointments" key. -/
def keyErrAppointments : String := "KeyError: appointments"

/-- Python truthiness of an optional-string argument: `None` and the empty
string are falsy. -/
def pyTruthy : Option String → Bool
  | none => false
  | some s => !(s == "")

/-- Result of `get_customer`: a customer dict or an `{"error": ...}` dict. -/
inductive GetCustomerResult where
  | customer (c : Customer)
  | errorMap (msg : String)
deriving DecidableEq

/-- `get_customer(phone=None, email=None, customer_id=None)`. -/
def get_customer (st : MockData) (phone email customer_id : Option String) :
    GetCustomerResult × MockData :=
  let r :=
    if pyTruthy phone then
      match st.customers.find? (fun c => c.phone == phone.getD "") with
      | some c => GetCustomerResult.customer c
      | none => GetCustomerResult.errorMap "Customer not found"
    else if pyTruthy email then
      match st.customers.find? (fun c => c.email == email.getD "") with
      | some c => GetCustomerResult.customer c
      | none => GetCustomerResult.errorMap "Customer not found"
    else if pyTruthy customer_id then
      match st.customers.find? (fun c => c.id == customer_id.getD "") with
      | some c => GetCustomerResult.customer c
      | none => GetCustomerResult.errorMap "Customer not found"
    else GetCustomerResult.errorMap "No search criteria provided"
  (r, st)

/-- Reply dict of `get_customer_appointments`. -/
structure AppointmentsReply where
  customer_id : String
  appointments : List Appointment
deriving DecidableEq

/-- `get_customer_appointments(customer_id)`: always reads
`MOCK_DATA["appointments"]`, raising `KeyError` when the key is absent. -/
def get_customer_appointments (st : MockData) (customer_id : String) :
    Except String AppointmentsReply × MockData :=
  match st.appointments with
  | none => (Except.error keyErrAppointments, st)
  | some apps =>
    (Except.ok { customer_id := customer_id,
                 appointments := apps.filter (fun a => a.customer_id == customer_id) }, st)

/-- Reply dict of `get_customer_contracts`. -/
structure ContractsReply where
  customer_id : String
  contracts : List Contract
deriving DecidableEq

/-- `get_customer_contracts(customer_id)`. -/
def get_customer_contracts (st : MockData) (customer_id : String) :
    ContractsReply × MockData :=
  ({ customer_id := customer_id,
     contracts := st.contracts.filter (fun c => c.customer_id == customer_id) }, st)

/-- Reply dict of `get_customer_billing`. -/
structure BillingReply where
  customer_id : String
  billing_history : List Bill
deriving DecidableEq

/-- `get_customer_billing(customer_id)`. -/
def get_customer_billing (st : MockData) (customer_id : String) :
    BillingReply × MockData :=
  ({ customer_id := customer_id,
     billing_history := st.billing_history.filter (fun b => b.customer_id == customer_id) }, st)

/-- Reply dict of `get_customer_usage`. -/
structure UsageReply where
  customer_id : String
  usage_data : List UsageRecord
deriving DecidableEq

/-- `get_customer_usage(customer_id, days=30)`: filter, stable-sort by date
descending (Python `list.sort(key=..., reverse=True)`; `insertionSort` with
the reversed relation is the same stable sort), then truncate.  The sort acts
on the fresh filtered list, not on the dataset. -/
def get_customer_usage (st : MockData) (customer_id : String) (days : Nat := 30) :
    UsageReply × MockData :=
  let usage := st.usage_data.filter (fun u => u.customer_id == customer_id)
  let sorted := usage.insertionSort (fun a b => b.date ≤ a.date)
  ({ customer_id := customer_id, usage_data := sorted.take days }, st)

/-- Reply dict of `get_customer_payment_methods`. -/
structure PaymentMethodsReply where
  customer_id : String
  payment_methods : List PaymentMethod
deriving DecidableEq

/-- `get_customer_payment_methods(customer_id)`. -/
def get_customer_payment_methods (st : MockData) (customer_id : String) :
    PaymentMethodsReply × MockData :=
  ({ customer_id := customer_id,
     payment_methods := st.payment_methods.filter (fun p => p.customer_id == customer_id) }, st)

/-- Result of `schedule_appointment`: the propagated `{"error": ...}` dict of
the customer lookup, or the new appointment dict. -/
inductive ScheduleResult where
  | errorMap (msg : String)
  | appointment (a : Appointment)
deriving DecidableEq

/-- `schedule_appointment(customer_id, date, service)`: verifies the customer,
then reads (and appends to) `MOCK_DATA["appointments"]` - a `KeyError` when
the key is absent. -/
def schedule_appointment (st : MockData) (customer_id date service : String) :
    Except String ScheduleResult × MockData :=
  match (get_customer st none none (some customer_id)).1 with
  | GetCustomerResult.errorMap msg => (Except.ok (ScheduleResult.errorMap msg), st)
  | GetCustomerResult.customer c =>
    match st.appointments with
    | none => (Except.error keyErrAppointments, st)
    | some apps =>
      let appointment : Appointment :=
        { id := "APT" ++ pyFormat apps.length 4,
          customer_id := customer_id,
          customer_name := c.name,
          date := date,
          service := service,
          status := "Scheduled",
          location := "JTC Summit (near Jurong East MRT Station)",
          notes := "" }
      (Except.ok (ScheduleResult.appointment appointment),
       { st with appointments := some (apps ++ [appointment]) })

/-- Hour-of-day of a datetime given in days: `datetime.hour`. -/
def pyHour (t : ℚ) : ℤ := ⌊24 * t⌋ % 24

/-- The datetimes visited by the `while current <= end` loop of
`get_available_appointment_slots`: `start, start + 1h, ...` up to `end`. -/
def slotTimes (s e : ℚ) : List ℚ :=
  if s ≤ e then (List.range ((⌊24 * (e - s)⌋).toNat + 1)).map (fun k => s + (k : ℚ) / 24)
  else []

/-- The slot-hour test `current.hour >= 9 and current.hour < 17`. -/
def isSlotHourB (t : ℚ) : Bool := decide (9 ≤ pyHour t ∧ pyHour t < 17)

/-- Body of the slot-scanning loop.  At each slot-hour instant the code reads
`MOCK_DATA["appointments"]` (inside `any(...)`), raising `KeyError` when the
key is absent; `iso` renders a datetime the way `isoformat` would, for the
comparison with stored appointment dates (never reached when the key is
absent). -/
def slotsLoop (iso : ℚ → String) (apps? : Option (List Appointment)) :
    List ℚ → Except String (List ℚ)
  | [] => Except.ok []
  | t :: ts =>
    if isSlotHourB t then
      match apps? with
      | none => Except.error keyErrAppointments
      | some apps =>
        match slotsLoop iso apps? ts with
        | Except.error msg => Except.error msg
        | Except.ok rest =>
          if apps.any (fun a => a.date == iso t) then Except.ok rest
          else Except.ok (t :: rest)
    else slotsLoop iso apps? ts

/-- `get_available_appointment_slots(start_date, end_date)`; the date strings
are represented by their parsed datetime values (`datetime.fromisoformat`). -/
def get_available_appointment_slots (iso : ℚ → String) (st : MockData) (s e : ℚ) :
    Except String (List ℚ) × MockData :=
  (slotsLoop iso st.appointments (slotTimes s e), st)

/-! ## Concrete instances used for witnesses and counterexamples -/

/-- The all-zeros oracle (every random draw takes its smallest value). -/
def oZero : Oracle :=
  { addrBlock := fun _ => 0, addrFloor := fun _ => 0, addrUnit := fun _ => 0,
    addrPostal := fun _ => 0, joinedDays := fun _ => 0, langPick := fun _ => 0,
    contractCustomer := fun _ => 0, planPick := fun _ => 0, startDays := fun _ => 0,
    termPick := fun _ => 0, rateU := fun _ => 0, greenPick := fun _ => 0,
    baseUsageU := fun _ _ => 0, dailyU := fun _ _ _ => 0, dailyU2 := fun _ _ _ => 0,
    payPick := fun _ => 0, cardPick := fun _ => 0, lastFour := fun _ => 0,
    expiryM := fun _ => 0, expiryY := fun _ => 0, bankPick := fun _ => 0,
    acctLastFour := fun _ => 0 }

/-- An oracle whose uniform draw for the contract rate yields 0.1834, a value
in `[0.18, 0.30)` whose 4-decimal rounding has nonzero 3rd and 4th decimals. -/
def oRate : Oracle := { oZero with rateU := fun _ => 17 / 600 }

/-- A trivial isoformat renderer for instantiating the slot scan (the
rendering is only consulted when the appointments key exists). -/
def isoZero : ℚ → String := fun _ => ""

def sampleCustomers : List Customer := genCustomers oZero 0 3

def sampleContract : Contract := mkContract oZero 0 sampleCustomers 0

def sampleBill : Bill :=
  mkBill sampleContract 0 0 (monthlyUsage oZero 0 0) (0 - 30 * ((0 : Nat) : ℚ))

def sampleUsage : UsageRecord :=
  mkDailyUsage oZero sampleContract 0 0 0 (monthlyUsage oZero 0 0)
    (0 - 30 * ((0 : Nat) : ℚ) - ((0 : Nat) : ℚ))

def samplePayment : PaymentMethod :=
  mkPayment oZero 0 (sampleCustomers.getD 0 dfltCustomer)

/-- The contract generated under `oRate` (its rate is 0.1834). -/
def rateContract : Contract := mkContract oRate 0 (genCustomers oRate 0 3) 0

/-! ## Specification predicates -/

/-- The financial breakdown of a generated bill: there are raw (unrounded)
itemized charges - energy, grid, transmission-loss, EMC, PSO - such that
every stored charge field is their 2-decimal rounding, the stored subtotal
is the rounding of their sum (plus the fixed 4.39 market-support fee), the
stored GST is the rounding of 8 percent of that sum, and the stored total
is the rounding of sum-plus-GST. -/
def BillShape (b : Bill) : Prop :=
  ∃ e g t ec p : ℚ,
    b.charges.energy_charge = pyRound e 2 ∧
    b.charges.market_support_fee = pyRound (439 / 100) 2 ∧
    b.charges.power_grid_charge = pyRound g 2 ∧
    b.charges.transmission_loss_charge = pyRound t 2 ∧
    b.charges.emc_charge = pyRound ec 2 ∧
    b.charges.pso_charge = pyRound p 2 ∧
    b.charges.subtotal = pyRound (e + 439 / 100 + g + t + ec + p) 2 ∧
    b.charges.gst = pyRound ((e + 439 / 100 + g + t + ec + p) * (8 / 100)) 2 ∧
    b.total_amount = pyRound ((e + 439 / 100 + g + t + ec + p)
      + (e + 439 / 100 + g + t + ec + p) * (8 / 100)) 2

/-- All 2-decimal-rounded monetary fields of a bill are fixed points of
2-decimal rounding. -/
def TwoDecimalBill (b : Bill) : Prop :=
  pyRound b.charges.energy_charge 2 = b.charges.energy_charge ∧
  pyRound b.charges.market_support_fee 2 = b.charges.market_support_fee ∧
  pyRound b.charges.power_grid_charge 2 = b.charges.power_grid_charge ∧
  pyRound b.charges.transmission_loss_charge 2 = b.charges.transmission_loss_charge ∧
  pyRound b.charges.emc_charge 2 = b.charges.emc_charge ∧
  pyRound b.charges.pso_charge 2 = b.charges.pso_charge ∧
  pyRound b.charges.subtotal 2 = b.charges.subtotal ∧
  pyRound b.charges.gst 2 = b.charges.gst ∧
  pyRound b.total_amount 2 = b.total_amount

/-- What C1 requires of a single-key lookup: if some customer matches, the
result is a matching customer that is unique among the customers; otherwise
the result is the not-found error mapping. -/
def lookupSpec (cs : List Customer) (f : Customer → String) (s : String)
    (r : GetCustomerResult) : Prop :=
  ((∃ c ∈ cs, f c = s) →
    ∃ c, r = GetCustomerResult.customer c ∧ c ∈ cs ∧ f c = s ∧
      ∀ c' ∈ cs, f c' = s → c' = c) ∧
  ((¬ ∃ c ∈ cs, f c = s) → r = GetCustomerResult.errorMap "Customer not found")

/-- Invariant carried through the contracts loop. -/
def accInv (cs : List Customer) (acc : GenAcc) : Prop :=
  (∀ c ∈ acc.contracts,
    (c.end_date = c.start_date + (c.term_months : ℚ) * 30 ∧
      (c.term_months = 12 ∨ c.term_months = 24) ∧
      (∃ r : ℚ, c.rate = pyRound r 4)) ∧
    ∃ cu ∈ cs, cu.id = c.customer_id) ∧
  (∀ b ∈ acc.bills, BillShape b ∧ ∃ ct ∈ acc.contracts, ct.id = b.contract_id) ∧
  (∀ u ∈ acc.usage, ∃ ct ∈ acc.contracts, ct.id = u.contract_id)

/-- Whether the hourly scan between `s` and `e` visits a slot-hour instant
(and hence reads the appointments key). -/
def hasSlotHour (s e : ℚ) : Bool := (slotTimes s e).any isSlotHourB

/-! ## Arithmetic lemmas for the decimal and rounding helpers -/

theorem digitChar_toNat {d : Nat} (h : d < 10) : (digitChar d).toNat = 48 + d := by
  interval_cases d <;> rfl

theorem digitsVal_append_singleton (xs : List Char) (c : Char) :
    digitsVal (xs ++ [c]) = 10 * digitsVal xs + (c.toNat - 48) := by
  simp [digitsVal, List.foldl_append]

theorem digitsVal_decDigitsAux :
    ∀ fuel n, n < fuel → digitsVal (decDigitsAux fuel n) = n := by
  intro fuel
  induction fuel with
  | zero => omega
  | succ fuel ih =>
    intro n h
    rw [decDigitsAux]
    split
    · next h10 =>
      simp [digitsVal, List.foldl, digitChar_toNat h10]
    · next h10 =>
      have hdiv : n / 10 < n := Nat.div_lt_self (by omega) (by omega)
      rw [digitsVal_append_singleton, ih (n / 10) (by omega),
        digitChar_toNat (Nat.mod_lt n (by omega))]
      omega

theorem digitsVal_decDigits (n : Nat) : digitsVal (decDigits n) = n :=
  digitsVal_decDigitsAux (n + 1) n (by omega)

theorem digitsVal_replicate_zero (k : Nat) (cs : List Char) :
    digitsVal (List.replicate k '0' ++ cs) = digitsVal cs := by
  induction k with
  | zero => simp
  | succ k ih =>
    have : List.replicate (k + 1) '0' ++ cs = '0' :: (List.replicate k '0' ++ cs) := by
      simp [List.replicate_succ]
    rw [this]
    simpa [digitsVal] using ih

theorem digitsVal_padZeros (w : Nat) (cs : List Char) :
    digitsVal (padZeros w cs) = digitsVal cs :=
  digitsVal_replicate_zero _ cs

theorem natStr_injective : Function.Injective natStr := by
  intro m n h
  have hd : decDigits m = decDigits n := congrArg String.data h
  have := congrArg digitsVal hd
  rwa [digitsVal_decDigits, digitsVal_decDigits] at this

theorem pyFormat_injective (w : Nat) {m n : Nat} (h : pyFormat m w = pyFormat n w) :
    m = n := by
  have hd : padZeros w (decDigits m) = padZeros w (decDigits n) := congrArg String.data h
  have := congrArg digitsVal hd
  rwa [digitsVal_padZeros, digitsVal_padZeros, digitsVal_decDigits, digitsVal_decDigits] at this

theorem abs_rhe_sub (q : ℚ) : |(rhe q : ℚ) - q| ≤ 1 / 2 := by
  have hfr : (q : ℚ) - ⌊q⌋ = Int.fract q := Int.self_sub_floor q
  have h0 : (0 : ℚ) ≤ Int.fract q := Int.fract_nonneg q
  have h1 : Int.fract q < 1 := Int.fract_lt_one q
  unfold rhe
  split
  · next h =>
    rw [abs_sub_comm, abs_of_nonneg (by linarith)]
    linarith
  · next h =>
    split
    · next h2 =>
      push_cast
      rw [abs_of_nonneg (by linarith)]
      linarith
    · next h2 =>
      have heq : Int.fract q = 1 / 2 := by linarith
      split
      · rw [abs_sub_comm, abs_of_nonneg (by linarith)]
        linarith
      · push_cast
        rw [abs_of_nonneg (by linarith)]
        linarith

theorem rhe_intCast (k : ℤ) : rhe (k : ℚ) = k := by
  unfold rhe
  rw [Int.fract_intCast, Int.floor_intCast]
  norm_num

theorem abs_pyRound_sub (q : ℚ) (n : Nat) :
    |pyRound q n - q| ≤ 1 / (2 * 10 ^ n) := by
  have hp : (0 : ℚ) < 10 ^ n := by positivity
  have h := abs_rhe_sub (q * 10 ^ n)
  have : pyRound q n - q = ((rhe (q * 10 ^ n) : ℚ) - q * 10 ^ n) / 10 ^ n := by
    field_simp [pyRound]
    ring
  rw [this, abs_div, abs_of_pos hp, div_le_div_iff₀ hp (by positivity)]
  calc |(rhe (q * 10 ^ n) : ℚ) - q * 10 ^ n| * (2 * 10 ^ n)
      ≤ (1 / 2) * (2 * 10 ^ n) := by
        apply mul_le_mul_of_nonneg_right h (by positivity)
    _ = 1 * 10 ^ n := by ring

theorem pyRound_idem (q : ℚ) (n : Nat) : pyRound (pyRound q n) n = pyRound q n := by
  have hp : (10 : ℚ) ^ n ≠ 0 := by positivity
  have hmul : pyRound q n * 10 ^ n = (rhe (q * 10 ^ n) : ℚ) := by
    field_simp [pyRound]
  calc pyRound (pyRound q n) n
      = (rhe (pyRound q n * 10 ^ n) : ℚ) / 10 ^ n := rfl
    _ = (rhe ((rhe (q * 10 ^ n) : ℤ) : ℚ) : ℚ) / 10 ^ n := by rw [hmul]
    _ = (rhe (q * 10 ^ n) : ℚ) / 10 ^ n := by rw [rhe_intCast]
    _ = pyRound q n := rfl

/-- Triangle-inequality bound used for bill totals: rounding the sum versus
summing the two roundings differs by at most three half-ulps. -/
theorem pyRound_add_bound (s g : ℚ) :
    |pyRound (s + g) 2 - (pyRound s 2 + pyRound g 2)| ≤ 3 / 200 := by
  have h1 := abs_pyRound_sub (s + g) 2
  have h2 := abs_pyRound_sub s 2
  have h3 := abs_pyRound_sub g 2
  have e : pyRound (s + g) 2 - (pyRound s 2 + pyRound g 2) =
      (pyRound (s + g) 2 - (s + g)) + (-(pyRound s 2 - s)) + (-(pyRound g 2 - g)) := by
    ring
  rw [e]
  have t1 := abs_add ((pyRound (s + g) 2 - (s + g)) + (-(pyRound s 2 - s))) (-(pyRound g 2 - g))
  have t2 := abs_add (pyRound (s + g) 2 - (s + g)) (-(pyRound s 2 - s))
  rw [abs_neg] at t1 t2
  norm_num at h1 h2 h3
  linarith


/-! ## Structural lemmas about the generator -/

theorem string_data_inj {a b : String} (h : a.data = b.data) : a = b :=
  congrArg String.mk h

theorem getD_mod_mem {α : Type} (l : List α) (d : α) (n : Nat) (h : l ≠ []) :
    l.getD (n % l.length) d ∈ l := by
  have hl : 0 < l.length := List.length_pos.mpr h
  have hlt : n % l.length < l.length := Nat.mod_lt _ hl
  rw [List.getD_eq_getElem l d hlt]
  exact List.getElem_mem hlt

theorem mkBill_shape (c : Contract) (cnt m : Nat) (mu bd : ℚ) :
    BillShape (mkBill c cnt m mu bd) :=
  ⟨mu * c.rate, mu * (484 / 10000), mu * c.rate * (4 / 1000), mu * (13 / 10000),
    mu * (7 / 10000), rfl, rfl, rfl, rfl, rfl, rfl, rfl, rfl, rfl⟩

theorem mkContract_end_date (o : Oracle) (now : ℚ) (cs : List Customer) (i : Nat) :
    (mkContract o now cs i).end_date
      = (mkContract o now cs i).start_date + ((mkContract o now cs i).term_months : ℚ) * 30 :=
  rfl

theorem mkContract_term (o : Oracle) (now : ℚ) (cs : List Customer) (i : Nat) :
    (mkContract o now cs i).term_months = 12 ∨ (mkContract o now cs i).term_months = 24 := by
  rcases Nat.mod_two_eq_zero_or_one (o.termPick i) with h | h <;>
    simp [mkContract, h]

theorem mkContract_rate (o : Oracle) (now : ℚ) (cs : List Customer) (i : Nat) :
    ∃ r : ℚ, (mkContract o now cs i).rate = pyRound r 4 :=
  ⟨pyUniform (18 / 100) (30 / 100) (o.rateU i), rfl⟩

theorem mkContract_customer_ref (o : Oracle) (now : ℚ) (cs : List Customer) (i : Nat)
    (h : cs ≠ []) : ∃ cu ∈ cs, cu.id = (mkContract o now cs i).customer_id :=
  ⟨cs.getD (o.contractCustomer i % cs.length) dfltCustomer,
    getD_mod_mem cs dfltCustomer _ h, rfl⟩

theorem mkDailyUsage_contract_id (o : Oracle) (c : Contract) (i month day : Nat)
    (mu ud : ℚ) : (mkDailyUsage o c i month day mu ud).contract_id = c.id := by
  unfold mkDailyUsage
  split <;> rfl

theorem mem_optBill {r : Option (Bill × List UsageRecord)} {b : Bill}
    (h : b ∈ optBill r) : ∃ u, r = some (b, u) := by
  match r with
  | none => simp [optBill] at h
  | some (b', u') =>
    simp only [optBill, List.mem_singleton] at h
    exact ⟨u', by rw [h]⟩

theorem mem_optUsage {r : Option (Bill × List UsageRecord)} {x : UsageRecord}
    (h : x ∈ optUsage r) : ∃ b u, r = some (b, u) ∧ x ∈ u := by
  match r with
  | none => simp [optUsage] at h
  | some (b', u') => exact ⟨b', u', rfl, h⟩

theorem mkMonth_bill {o : Oracle} {now : ℚ} {c : Contract} {i cnt m : Nat}
    {b : Bill} {u : List UsageRecord} (h : mkMonth o now c i cnt m = some (b, u)) :
    b.contract_id = c.id ∧ BillShape b := by
  simp only [mkMonth] at h
  split at h
  · obtain ⟨hb, hu⟩ := Prod.mk.inj (Option.some.inj h)
    subst hb
    exact ⟨rfl, mkBill_shape ..⟩
  · exact absurd h (by simp)

theorem mkMonth_usage {o : Oracle} {now : ℚ} {c : Contract} {i cnt m : Nat}
    {b : Bill} {u : List UsageRecord} (h : mkMonth o now c i cnt m = some (b, u)) :
    ∀ x ∈ u, x.contract_id = c.id := by
  simp only [mkMonth] at h
  split at h
  · obtain ⟨hb, hu⟩ := Prod.mk.inj (Option.some.inj h)
    subst hu
    intro x hx
    obtain ⟨day, -, rfl⟩ := List.mem_map.mp hx
    exact mkDailyUsage_contract_id ..
  · exact absurd h (by simp)

theorem genStep_inv {o : Oracle} {now : ℚ} {cs : List Customer} {acc : GenAcc}
    (i : Nat) (hcs : cs ≠ []) (h : accInv cs acc) :
    accInv cs (genStep o now cs acc i) := by
  obtain ⟨hc, hb, hu⟩ := h
  refine ⟨?_, ?_, ?_⟩
  · intro c hmem
    simp only [genStep, List.mem_append, List.mem_singleton] at hmem
    rcases hmem with hold | rfl
    · exact hc c hold
    · exact ⟨⟨mkContract_end_date .., mkContract_term .., mkContract_rate ..⟩,
        mkContract_customer_ref o now cs i hcs⟩
  · intro b hmem
    simp only [genStep, List.mem_append] at hmem
    have hctr : mkContract o now cs i ∈ (genStep o now cs acc i).contracts := by
      simp [genStep]
    rcases hmem with (hold | hnew) | hnew
    · obtain ⟨hshape, ct, hct, hid⟩ := hb b hold
      exact ⟨hshape, ct, by simp [genStep, List.mem_append]; exact Or.inl hct, hid⟩
    · obtain ⟨u, hr⟩ := mem_optBill hnew
      obtain ⟨hid, hshape⟩ := mkMonth_bill hr
      exact ⟨hshape, mkContract o now cs i, hctr, hid.symm⟩
    · obtain ⟨u, hr⟩ := mem_optBill hnew
      obtain ⟨hid, hshape⟩ := mkMonth_bill hr
      exact ⟨hshape, mkContract o now cs i, hctr, hid.symm⟩
  · intro x hmem
    simp only [genStep, List.mem_append] at hmem
    have hctr : mkContract o now cs i ∈ (genStep o now cs acc i).contracts := by
      simp [genStep]
    rcases hmem with (hold | hnew) | hnew
    · obtain ⟨ct, hct, hid⟩ := hu x hold
      exact ⟨ct, by simp [genStep, List.mem_append]; exact Or.inl hct, hid⟩
    · obtain ⟨b, u, hr, hx⟩ := mem_optUsage hnew
      exact ⟨mkContract o now cs i, hctr, (mkMonth_usage hr x hx).symm⟩
    · obtain ⟨b, u, hr, hx⟩ := mem_optUsage hnew
      exact ⟨mkContract o now cs i, hctr, (mkMonth_usage hr x hx).symm⟩

theorem foldl_genStep_inv (o : Oracle) (now : ℚ) (cs : List Customer)
    (hcs : cs ≠ []) (l : List Nat) :
    ∀ acc, accInv cs acc → accInv cs (l.foldl (genStep o now cs) acc) := by
  induction l with
  | nil => exact fun acc h => h
  | cons i l ih => exact fun acc h => ih _ (genStep_inv i hcs h)

theorem genCustomers_ne_nil (o : Oracle) (now : ℚ) {nC : Nat} (hn : 0 < nC) :
    genCustomers o now nC ≠ [] := by
  have : (genCustomers o now nC).length = nC := by
    simp [genCustomers]
  intro h
  rw [h] at this
  simp at this
  omega

theorem generate_inv (o : Oracle) (now : ℚ) {nC : Nat} (nO : Nat) (hn : 0 < nC) :
    accInv (genCustomers o now nC) (genAcc o now nC nO) := by
  refine foldl_genStep_inv o now _ (genCustomers_ne_nil o now hn) _ _ ?_
  exact ⟨fun c h => absurd h (List.not_mem_nil c),
    fun b h => absurd h (List.not_mem_nil b),
    fun u h => absurd h (List.not_mem_nil u)⟩

theorem mkPayment_customer_id (o : Oracle) (k : Nat) (cu : Customer) :
    (mkPayment o k cu).customer_id = cu.id := by
  simp only [mkPayment]
  split <;> rfl

/-! ## Lookup lemmas for get_customer -/

theorem generate_customers_eq (o : Oracle) (now : ℚ) (nC nO : Nat) :
    (generate_mock_data o now nC nO).customers = genCustomers o now nC := rfl

theorem string_append_cancel_left {p a b : String} (h : p ++ a = p ++ b) : a = b := by
  have hd := congrArg String.data h
  rw [String.data_append, String.data_append] at hd
  exact string_data_inj (List.append_cancel_left hd)

theorem mkCustomer_phone_inj {o : Oracle} {now : ℚ} {i j : Nat}
    (h : (mkCustomer o now i).phone = (mkCustomer o now j).phone) : i = j := by
  have : pyFormat i 8 = pyFormat j 8 := string_append_cancel_left h
  exact pyFormat_injective 8 this

theorem mkCustomer_id_inj {o : Oracle} {now : ℚ} {i j : Nat}
    (h : (mkCustomer o now i).id = (mkCustomer o now j).id) : i = j := by
  have : pyFormat i 4 = pyFormat j 4 := string_append_cancel_left h
  exact pyFormat_injective 4 this

theorem mkCustomer_email_inj {o : Oracle} {now : ℚ} {i j : Nat}
    (h : (mkCustomer o now i).email = (mkCustomer o now j).email) : i = j := by
  have h1 : natStr i ++ "@example.com" = natStr j ++ "@example.com" := by
    have h0 : "customer" ++ (natStr i ++ "@example.com")
        = "customer" ++ (natStr j ++ "@example.com") := by
      have e : ∀ k : Nat, "customer" ++ (natStr k ++ "@example.com")
          = (mkCustomer o now k).email := by
        intro k
        show _ = "customer" ++ natStr k ++ "@example.com"
        rw [String.append_assoc]
      rw [e i, e j, h]
    exact string_append_cancel_left h0
  have hd := congrArg String.data h1
  rw [String.data_append, String.data_append] at hd
  exact natStr_injective (string_data_inj (List.append_cancel_right hd))

/-- Uniqueness of a customer field inside the generated list, given
injectivity of the field over indices. -/
theorem genCustomers_field_inj (o : Oracle) (now : ℚ) (nC : Nat)
    (f : Customer → String)
    (hf : ∀ i j : Nat, f (mkCustomer o now i) = f (mkCustomer o now j) → i = j) :
    ∀ c ∈ genCustomers o now nC, ∀ c' ∈ genCustomers o now nC, f c = f c' → c = c' := by
  intro c hc c' hc' hfe
  obtain ⟨i, -, rfl⟩ := List.mem_map.mp hc
  obtain ⟨j, -, rfl⟩ := List.mem_map.mp hc'
  rw [hf i j hfe]

/-- The branch of `get_customer` reduced to a `find?`, for an injective field. -/
theorem lookupSpec_find (cs : List Customer) (f : Customer → String) (s : String)
    (hinj : ∀ c ∈ cs, ∀ c' ∈ cs, f c = f c' → c = c')
    (r : GetCustomerResult)
    (hr : r = match cs.find? (fun c => f c == s) with
      | some c => GetCustomerResult.customer c
      | none => GetCustomerResult.errorMap "Customer not found") :
    lookupSpec cs f s r := by
  constructor
  · rintro ⟨c, hc, hfc⟩
    cases hfind : cs.find? (fun c => f c == s) with
    | none =>
      have := List.find?_eq_none.mp hfind c hc
      simp [hfc] at this
    | some c₀ =>
      have hmem := List.mem_of_find?_eq_some hfind
      have hpc : f c₀ = s := by simpa using List.find?_some hfind
      refine ⟨c₀, ?_, hmem, hpc, fun c' hc' hfc' => hinj c' hc' c₀ hmem (by rw [hfc', hpc])⟩
      rw [hr, hfind]
  · intro hne
    cases hfind : cs.find? (fun c => f c == s) with
    | none => rw [hr, hfind]
    | some c₀ =>
      exact absurd ⟨c₀, List.mem_of_find?_eq_some hfind,
        by simpa using List.find?_some hfind⟩ hne

theorem get_customer_phone_eq (st : MockData) (s : String) (hs : s ≠ "") :
    (get_customer st (some s) none none).1
      = match st.customers.find? (fun c => c.phone == s) with
        | some c => GetCustomerResult.customer c
        | none => GetCustomerResult.errorMap "Customer not found" := by
  simp only [get_customer, pyTruthy, Option.getD_some]
  rw [if_pos (by simp [hs])]

theorem get_customer_email_eq (st : MockData) (s : String) (hs : s ≠ "") :
    (get_customer st none (some s) none).1
      = match st.customers.find? (fun c => c.email == s) with
        | some c => GetCustomerResult.customer c
        | none => GetCustomerResult.errorMap "Customer not found" := by
  simp only [get_customer, pyTruthy, Option.getD_some]
  rw [if_neg (by simp), if_pos (by simp [hs])]

theorem get_customer_id_eq (st : MockData) (s : String) (hs : s ≠ "") :
    (get_customer st none none (some s)).1
      = match st.customers.find? (fun c => c.id == s) with
        | some c => GetCustomerResult.customer c
        | none => GetCustomerResult.errorMap "Customer not found" := by
  simp only [get_customer, pyTruthy, Option.getD_some]
  rw [if_neg (by simp), if_neg (by simp), if_pos (by simp [hs])]

/-! ## Evaluation lemmas for the sample dataset -/

theorem generate_one_contracts (o : Oracle) (now : ℚ) (nC : Nat) :
    (generate_mock_data o now nC 1).contracts
      = [mkContract o now (genCustomers o now nC) 0] := by
  show (genAcc o now nC 1).contracts = _
  rw [genAcc, show List.range 1 = [0] from rfl]
  simp [genStep]

theorem month0_guard (o : Oracle) (now : ℚ) (cs : List Customer) (i : Nat) :
    (mkContract o now cs i).start_date < now - 30 * ((0 : Nat) : ℚ) := by
  show now - ((pyRandint 30 365 (o.startDays i) : Nat) : ℚ) < now - 30 * ((0 : Nat) : ℚ)
  have h : 0 < pyRandint 30 365 (o.startDays i) := by
    unfold pyRandint
    omega
  have h' : (0 : ℚ) < ((pyRandint 30 365 (o.startDays i) : Nat) : ℚ) := by
    exact_mod_cast h
  push_cast
  linarith

theorem sample_month1_guard :
    ¬ ((mkContract oZero 0 (genCustomers oZero 0 3) 0).start_date
        < (0 : ℚ) - 30 * ((1 : Nat) : ℚ)) := by
  show ¬ ((0 : ℚ) - ((pyRandint 30 365 (oZero.startDays 0) : Nat) : ℚ)
    < (0 : ℚ) - 30 * ((1 : Nat) : ℚ))
  have h : pyRandint 30 365 (oZero.startDays 0) = 30 := by decide
  rw [h]
  push_cast
  norm_num

theorem sampleContract_mem :
    sampleContract ∈ (generate_mock_data oZero 0 3 1).contracts := by
  rw [generate_one_contracts]
  exact List.mem_singleton.mpr rfl

theorem sampleBill_mem :
    sampleBill ∈ (generate_mock_data oZero 0 3 1).billing_history := by
  have h0 := month0_guard oZero 0 (genCustomers oZero 0 3) 0
  have h1 := sample_month1_guard
  show sampleBill ∈ (genAcc oZero 0 3 1).bills
  rw [genAcc, show List.range 1 = [0] from rfl]
  simp only [List.foldl_cons, List.foldl_nil]
  simp only [genStep, mkMonth, h0, if_pos, h1, if_neg, optBill]
  simp only [sampleBill, sampleContract, sampleCustomers]
  simp

theorem sampleUsage_mem :
    sampleUsage ∈ (generate_mock_data oZero 0 3 1).usage_data := by
  have h0 := month0_guard oZero 0 (genCustomers oZero 0 3) 0
  have h1 := sample_month1_guard
  show sampleUsage ∈ (genAcc oZero 0 3 1).usage
  rw [genAcc, show List.range 1 = [0] from rfl]
  simp only [List.foldl_cons, List.foldl_nil]
  simp only [genStep, mkMonth, h0, if_pos, h1, if_neg, optUsage]
  simp only [sampleUsage, sampleContract, sampleCustomers]
  refine List.mem_append.mpr (Or.inl (List.mem_append.mpr (Or.inr ?_)))
  exact List.mem_map.mpr ⟨0, List.mem_range.mpr (by omega), rfl⟩

theorem samplePayment_mem :
    samplePayment ∈ (generate_mock_data oZero 0 3 1).payment_methods := by
  show samplePayment ∈ (List.range (genCustomers oZero 0 3).length).map
    (fun k => mkPayment oZero k ((genCustomers oZero 0 3).getD k dfltCustomer))
  refine List.mem_map.mpr ⟨0, List.mem_range.mpr ?_, ?_⟩
  · simp [genCustomers]
  · rfl

/-! ## Claim theorems -/

/-- C1 counterexample: with exactly one lookup key provided but equal to the
empty string (falsy in Python), `get_customer` answers with the
no-search-criteria error even though no customer record matches the key, so
the result is neither a matching record nor the not-found error the claim
prescribes. -/
theorem get_customer_empty_key_cx :
    (¬ ∃ c ∈ (generate_mock_data oZero 0 3 1).customers, c.id = "")
    ∧ (get_customer (generate_mock_data oZero 0 3 1) none none (some "")).1
        = GetCustomerResult.errorMap "No search criteria provided"
    ∧ (get_customer (generate_mock_data oZero 0 3 1) none none (some "")).1
        ≠ GetCustomerResult.errorMap "Customer not found" := by
  refine ⟨by decide, rfl, by decide⟩

/-- C1 (amended): for every call to `get_customer` with exactly one of phone,
email or customer id provided and non-empty, the result is the unique
matching customer record of the generated dataset if one exists and otherwise
the not-found error mapping. -/
theorem get_customer_single_key (o : Oracle) (now : ℚ) (nC nO : Nat)
    (s : String) (hs : s ≠ "") :
    lookupSpec (generate_mock_data o now nC nO).customers (fun c => c.phone) s
      (get_customer (generate_mock_data o now nC nO) (some s) none none).1
    ∧ lookupSpec (generate_mock_data o now nC nO).customers (fun c => c.email) s
      (get_customer (generate_mock_data o now nC nO) none (some s) none).1
    ∧ lookupSpec (generate_mock_data o now nC nO).customers (fun c => c.id) s
      (get_customer (generate_mock_data o now nC nO) none none (some s)).1 := by
  refine ⟨?_, ?_, ?_⟩
  · exact lookupSpec_find _ _ s
      (genCustomers_field_inj o now nC _ (fun i j => mkCustomer_phone_inj))
      _ (get_customer_phone_eq _ s hs)
  · exact lookupSpec_find _ _ s
      (genCustomers_field_inj o now nC _ (fun i j => mkCustomer_email_inj))
      _ (get_customer_email_eq _ s hs)
  · exact lookupSpec_find _ _ s
      (genCustomers_field_inj o now nC _ (fun i j => mkCustomer_id_inj))
      _ (get_customer_id_eq _ s hs)

/-- Witness for the amended C1 at a concrete dataset and key. -/
theorem get_customer_single_key_witness :
    lookupSpec (generate_mock_data oZero 0 3 1).customers (fun c => c.phone) "+6500000001"
      (get_customer (generate_mock_data oZero 0 3 1) (some "+6500000001") none none).1
    ∧ lookupSpec (generate_mock_data oZero 0 3 1).customers (fun c => c.email) "+6500000001"
      (get_customer (generate_mock_data oZero 0 3 1) none (some "+6500000001") none).1
    ∧ lookupSpec (generate_mock_data oZero 0 3 1).customers (fun c => c.id) "+6500000001"
      (get_customer (generate_mock_data oZero 0 3 1) none none (some "+6500000001")).1 :=
  get_customer_single_key oZero 0 3 1 "+6500000001" (by decide)

/-- C2 counterexample: a call with the empty customer id - an id matching no
customer - is answered with the no-search-criteria error mapping rather than
the not-found error mapping (the state is still unchanged). -/
theorem schedule_empty_cid_cx :
    (¬ ∃ c ∈ (generate_mock_data oZero 0 3 1).customers, c.id = "")
    ∧ schedule_appointment (generate_mock_data oZero 0 3 1) "" "2024-01-01T10:00:00"
        "consultation"
      = (Except.ok (ScheduleResult.errorMap "No search criteria provided"),
          generate_mock_data oZero 0 3 1)
    ∧ (schedule_appointment (generate_mock_data oZero 0 3 1) "" "2024-01-01T10:00:00"
        "consultation").1
      ≠ Except.ok (ScheduleResult.errorMap "Customer not found") := by
  refine ⟨by decide, rfl, ?_⟩
  intro h
  have h' : (Except.ok (ScheduleResult.errorMap "No search criteria provided")
      : Except String ScheduleResult)
      = Except.ok (ScheduleResult.errorMap "Customer not found") := h
  exact absurd h' (by simp)

/-- C2 (amended): for every state and every non-empty customer id matching no
customer, `schedule_appointment` returns the not-found error mapping and
leaves the state (in particular the appointments collection) unchanged. -/
theorem schedule_unknown_customer (st : MockData) (cid date service : String)
    (hne : cid ≠ "") (hno : ∀ c ∈ st.customers, c.id ≠ cid) :
    schedule_appointment st cid date service
      = (Except.ok (ScheduleResult.errorMap "Customer not found"), st) := by
  have h1 : (get_customer st none none (some cid)).1
      = GetCustomerResult.errorMap "Customer not found" := by
    rw [get_customer_id_eq st cid hne]
    have hfind : st.customers.find? (fun c => c.id == cid) = none :=
      List.find?_eq_none.mpr (fun c hc => by simp [hno c hc])
    rw [hfind]
  simp only [schedule_appointment]
  rw [h1]

/-- Witness for the amended C2. -/
theorem schedule_unknown_customer_witness :
    schedule_appointment (generate_mock_data oZero 0 3 1) "CUST9999" "2024-01-01T10:00:00"
        "consultation"
      = (Except.ok (ScheduleResult.errorMap "Customer not found"),
          generate_mock_data oZero 0 3 1) :=
  schedule_unknown_customer (generate_mock_data oZero 0 3 1) "CUST9999" "2024-01-01T10:00:00"
    "consultation" (by decide) (by decide)

theorem slotsLoop_none (iso : ℚ → String) (l : List ℚ) :
    (l.any isSlotHourB = true →
      slotsLoop iso none l = Except.error keyErrAppointments)
    ∧ (l.any isSlotHourB = false → slotsLoop iso none l = Except.ok []) := by
  induction l with
  | nil => simp [slotsLoop]
  | cons t ts ih =>
    cases hb : isSlotHourB t with
    | true =>
      refine ⟨fun _ => by simp [slotsLoop, hb], fun ha => ?_⟩
      rw [List.any_cons, hb] at ha
      simp at ha
    | false =>
      have hcons : slotsLoop iso none (t :: ts) = slotsLoop iso none ts := by
        simp [slotsLoop, hb]
      constructor
      · intro ha
        rw [List.any_cons, hb, Bool.false_or] at ha
        rw [hcons]
        exact ih.1 ha
      · intro ha
        rw [List.any_cons, hb, Bool.false_or] at ha
        rw [hcons]
        exact ih.2 ha

/-- C3 counterexample: a slot scan over a range that visits no slot-hour
instant (here a backwards range) never reads the absent appointments key and
returns a normal empty-slots result, so not every call reaches the
missing-key access. -/
theorem slots_empty_scan_cx :
    (get_available_appointment_slots isoZero (generate_mock_data oZero 0 3 1) 1 0).1
      = Except.ok [] := by
  have hst : (generate_mock_data oZero 0 3 1).appointments = none := rfl
  show (slotsLoop isoZero (generate_mock_data oZero 0 3 1).appointments (slotTimes 1 0), _).1
    = Except.ok []
  rw [hst]
  refine (slotsLoop_none isoZero (slotTimes 1 0)).2 ?_
  have : slotTimes 1 0 = [] := by
    rw [slotTimes, if_neg (by norm_num)]
  rw [this]
  rfl

/-- C3 (amended): the generated dataset has no appointments key; on any state
without that key, `get_customer_appointments` always raises the missing-key
error, `schedule_appointment` with an existing (non-empty) customer id raises
it after the successful lookup and leaves the state unchanged, and
`get_available_appointment_slots` raises it exactly when its hourly scan
visits a slot-hour instant, returning a normal empty result otherwise. -/
theorem appointments_key_missing (o : Oracle) (now : ℚ) (nC nO : Nat)
    (st : MockData) (hst : st.appointments = none) (iso : ℚ → String)
    (cid cid2 d sv : String) (hne : cid2 ≠ "")
    (hex : ∃ c ∈ st.customers, c.id = cid2) (s e : ℚ) :
    (generate_mock_data o now nC nO).appointments = none
    ∧ (get_customer_appointments st cid).1 = Except.error keyErrAppointments
    ∧ (schedule_appointment st cid2 d sv).1 = Except.error keyErrAppointments
    ∧ (schedule_appointment st cid2 d sv).2 = st
    ∧ (hasSlotHour s e = true →
        (get_available_appointment_slots iso st s e).1 = Except.error keyErrAppointments)
    ∧ (hasSlotHour s e = false →
        (get_available_appointment_slots iso st s e).1 = Except.ok []) := by
  have hsched : schedule_appointment st cid2 d sv = (Except.error keyErrAppointments, st) := by
    obtain ⟨c, hc, hcid⟩ := hex
    have hfound : ∃ c₀, (get_customer st none none (some cid2)).1
        = GetCustomerResult.customer c₀ := by
      rw [get_customer_id_eq st cid2 hne]
      cases hfind : st.customers.find? (fun c => c.id == cid2) with
      | some c₀ => exact ⟨c₀, rfl⟩
      | none =>
        have := List.find?_eq_none.mp hfind c hc
        simp [hcid] at this
    obtain ⟨c₀, hc₀⟩ := hfound
    simp only [schedule_appointment]
    rw [hc₀, hst]
  refine ⟨rfl, by simp [get_customer_appointments, hst], by rw [hsched], by rw [hsched],
    ?_, ?_⟩
  · intro hb
    show (slotsLoop iso st.appointments (slotTimes s e), st).1 = _
    rw [hst]
    exact (slotsLoop_none iso (slotTimes s e)).1 hb
  · intro hb
    show (slotsLoop iso st.appointments (slotTimes s e), st).1 = _
    rw [hst]
    exact (slotsLoop_none iso (slotTimes s e)).2 hb

/-- Witness for the amended C3 on the sample dataset: the hour-9 instant
raises the missing-key error, a backwards range returns normally. -/
theorem appointments_key_missing_witness :
    (generate_mock_data oZero 0 3 1).appointments = none
    ∧ (get_customer_appointments (generate_mock_data oZero 0 3 1) "CUST0001").1
        = Except.error keyErrAppointments
    ∧ (schedule_appointment (generate_mock_data oZero 0 3 1) "CUST0000"
        "2024-01-01T10:00:00" "repair").1 = Except.error keyErrAppointments
    ∧ (schedule_appointment (generate_mock_data oZero 0 3 1) "CUST0000"
        "2024-01-01T10:00:00" "repair").2 = generate_mock_data oZero 0 3 1
    ∧ (get_available_appointment_slots isoZero (generate_mock_data oZero 0 3 1)
        (9 / 24) (9 / 24)).1 = Except.error keyErrAppointments
    ∧ (get_available_appointment_slots isoZero (generate_mock_data oZero 0 3 1) 1 0).1
        = Except.ok [] := by
  have h1 := appointments_key_missing oZero 0 3 1 (generate_mock_data oZero 0 3 1) rfl
    isoZero "CUST0001" "CUST0000" "2024-01-01T10:00:00" "repair" (by decide) (by decide)
    (9 / 24) (9 / 24)
  have h2 := appointments_key_missing oZero 0 3 1 (generate_mock_data oZero 0 3 1) rfl
    isoZero "CUST0001" "CUST0000" "2024-01-01T10:00:00" "repair" (by decide) (by decide)
    1 0
  exact ⟨h1.1, h1.2.1, h1.2.2.1, h1.2.2.2.1,
    h1.2.2.2.2.1 (by with_unfolding_all decide),
    h2.2.2.2.2.2 (by with_unfolding_all decide)⟩

/-- C7: the code has no appointments key in the generated dataset, so
`get_customer_appointments` terminates with a raised `KeyError` - a fatal
condition that is not an error mapping - contradicting the error-handling
design of the spec. -/
theorem get_customer_appointments_raises :
    (get_customer_appointments (generate_mock_data oZero 0 3 1) "CUST0000").1
      = Except.error keyErrAppointments := rfl

/-- C8: every operation returns the state unchanged, except
`schedule_appointment`, which changes at most the appointments collection and
only by appending a single record; customers, contracts, billing history,
usage data and payment methods are never modified. -/
theorem operations_frame (st : MockData) (phone email cid : Option String)
    (c2 c3 c4 c5 c6 c7 d sv : String) (days : Nat) (iso : ℚ → String) (s e : ℚ) :
    (get_customer st phone email cid).2 = st
    ∧ (get_customer_appointments st c2).2 = st
    ∧ (get_customer_contracts st c3).2 = st
    ∧ (get_customer_billing st c4).2 = st
    ∧ (get_customer_usage st c5 days).2 = st
    ∧ (get_customer_payment_methods st c6).2 = st
    ∧ (get_available_appointment_slots iso st s e).2 = st
    ∧ (schedule_appointment st c7 d sv).2.customers = st.customers
    ∧ (schedule_appointment st c7 d sv).2.contracts = st.contracts
    ∧ (schedule_appointment st c7 d sv).2.billing_history = st.billing_history
    ∧ (schedule_appointment st c7 d sv).2.usage_data = st.usage_data
    ∧ (schedule_appointment st c7 d sv).2.payment_methods = st.payment_methods
    ∧ ((schedule_appointment st c7 d sv).2.appointments = st.appointments
        ∨ ∃ apps a, st.appointments = some apps
            ∧ (schedule_appointment st c7 d sv).2.appointments = some (apps ++ [a])) := by
  have happ : (get_customer_appointments st c2).2 = st := by
    simp only [get_customer_appointments]
    split <;> rfl
  have hsched : (schedule_appointment st c7 d sv).2 = st
      ∨ ∃ apps a, st.appointments = some apps
          ∧ (schedule_appointment st c7 d sv).2
            = { st with appointments := some (apps ++ [a]) } := by
    simp only [schedule_appointment]
    cases (get_customer st none none (some c7)).1 with
    | errorMap msg => exact Or.inl rfl
    | customer c =>
      cases hap : st.appointments with
      | none => exact Or.inl rfl
      | some apps => exact Or.inr ⟨apps, _, rfl, rfl⟩
  refine ⟨rfl, happ, rfl, rfl, rfl, rfl, rfl, ?_, ?_, ?_, ?_, ?_, ?_⟩
  · rcases hsched with h | ⟨apps, a, -, h⟩ <;> rw [h]
  · rcases hsched with h | ⟨apps, a, -, h⟩ <;> rw [h]
  · rcases hsched with h | ⟨apps, a, -, h⟩ <;> rw [h]
  · rcases hsched with h | ⟨apps, a, -, h⟩ <;> rw [h]
  · rcases hsched with h | ⟨apps, a, -, h⟩ <;> rw [h]
  · rcases hsched with h | ⟨apps, a, hap, h⟩
    · exact Or.inl (by rw [h])
    · exact Or.inr ⟨apps, a, hap, by rw [h]⟩

/-- C10: `get_customer_usage` returns a reply whose usage list contains only
records of the requested customer, has at most `days` entries, and is sorted
by date in descending order; the default `days` is 30. -/
theorem usage_query_spec (st : MockData) (cid : String) (days : Nat) :
    (get_customer_usage st cid days).1.customer_id = cid
    ∧ (∀ u ∈ (get_customer_usage st cid days).1.usage_data, u.customer_id = cid)
    ∧ (get_customer_usage st cid days).1.usage_data.length ≤ days
    ∧ List.Pairwise (fun a b : UsageRecord => b.date ≤ a.date)
        (get_customer_usage st cid days).1.usage_data
    ∧ get_customer_usage st cid = get_customer_usage st cid 30 := by
  haveI : IsTotal UsageRecord (fun a b : UsageRecord => b.date ≤ a.date) :=
    ⟨fun a b => le_total b.date a.date⟩
  haveI : IsTrans UsageRecord (fun a b : UsageRecord => b.date ≤ a.date) :=
    ⟨fun _ _ _ hab hbc => le_trans hbc hab⟩
  refine ⟨rfl, ?_, ?_, ?_, rfl⟩
  · intro u hu
    have h1 : u ∈ (st.usage_data.filter
        (fun u => u.customer_id == cid)).insertionSort
          (fun a b : UsageRecord => b.date ≤ a.date) :=
      List.take_subset days _ hu
    have h2 : u ∈ st.usage_data.filter (fun u => u.customer_id == cid) :=
      (List.perm_insertionSort _ _).subset h1
    simpa using (List.mem_filter.mp h2).2
  · show (List.take days _).length ≤ days
    rw [List.length_take]
    exact min_le_left _ _
  · exact List.Pairwise.sublist (List.take_sublist days _)
      (List.sorted_insertionSort (fun a b : UsageRecord => b.date ≤ a.date) _)

/-! C4 / C5 / C6 / C9: consequences of the generator invariant. -/

/-- C4: every generated bill carries raw itemized charges whose 2-decimal
roundings are the stored fields, with GST being 8 percent of the raw subtotal
and the stored total the rounding of subtotal plus GST; consequently the
stored total agrees with stored subtotal plus stored GST to within
accumulated rounding error (at most 0.015). -/
theorem bill_financial_consistency (o : Oracle) (now : ℚ) (nC nO : Nat)
    (hn : 0 < nC) (b : Bill)
    (hb : b ∈ (generate_mock_data o now nC nO).billing_history) :
    BillShape b
    ∧ |b.total_amount - (b.charges.subtotal + b.charges.gst)| ≤ 3 / 200 := by
  have hinv := generate_inv o now nO hn
  have hb' : b ∈ (genAcc o now nC nO).bills := hb
  have hsh : BillShape b := (hinv.2.1 b hb').1
  refine ⟨hsh, ?_⟩
  obtain ⟨e, g, t, ec, p, -, -, -, -, -, -, hsub, hgst, htot⟩ := hsh
  rw [hsub, hgst, htot]
  exact pyRound_add_bound _ _

/-- Witness for C4 at the only bill of the sample dataset. -/
theorem bill_financial_consistency_witness :
    BillShape sampleBill
    ∧ |sampleBill.total_amount - (sampleBill.charges.subtotal + sampleBill.charges.gst)|
        ≤ 3 / 200 :=
  bill_financial_consistency oZero 0 3 1 (by decide) sampleBill sampleBill_mem

/-- C5: every generated contract satisfies `end_date = start_date +
term_months * 30 days` exactly, with a term of 12 or 24 months. -/
theorem contract_dates_exact (o : Oracle) (now : ℚ) (nC nO : Nat) (hn : 0 < nC)
    (c : Contract) (hc : c ∈ (generate_mock_data o now nC nO).contracts) :
    c.end_date = c.start_date + (c.term_months : ℚ) * 30
    ∧ (c.term_months = 12 ∨ c.term_months = 24) := by
  have hinv := generate_inv o now nO hn
  have hc' : c ∈ (genAcc o now nC nO).contracts := hc
  exact ⟨((hinv.1 c hc').1).1, ((hinv.1 c hc').1).2.1⟩

/-- Witness for C5 at the sample contract. -/
theorem contract_dates_exact_witness :
    sampleContract.end_date = sampleContract.start_date + (sampleContract.term_months : ℚ) * 30
    ∧ (sampleContract.term_months = 12 ∨ sampleContract.term_months = 24) :=
  contract_dates_exact oZero 0 3 1 (by decide) sampleContract sampleContract_mem

/-- C6: referential integrity of the generated dataset - every contract and
payment method carries the id of an existing customer, every bill and usage
record the id of an existing contract. -/
theorem referential_integrity (o : Oracle) (now : ℚ) (nC nO : Nat) (hn : 0 < nC) :
    (∀ c ∈ (generate_mock_data o now nC nO).contracts,
      ∃ cu ∈ (generate_mock_data o now nC nO).customers, cu.id = c.customer_id)
    ∧ (∀ p ∈ (generate_mock_data o now nC nO).payment_methods,
      ∃ cu ∈ (generate_mock_data o now nC nO).customers, cu.id = p.customer_id)
    ∧ (∀ b ∈ (generate_mock_data o now nC nO).billing_history,
      ∃ ct ∈ (generate_mock_data o now nC nO).contracts, ct.id = b.contract_id)
    ∧ (∀ u ∈ (generate_mock_data o now nC nO).usage_data,
      ∃ ct ∈ (generate_mock_data o now nC nO).contracts, ct.id = u.contract_id) := by
  have hinv := generate_inv o now nO hn
  refine ⟨fun c hc => (hinv.1 c hc).2, ?_, fun b hb => (hinv.2.1 b hb).2,
    fun u hu => hinv.2.2 u hu⟩
  intro p hp
  have hp' : p ∈ (List.range (genCustomers o now nC).length).map
      (fun k => mkPayment o k ((genCustomers o now nC).getD k dfltCustomer)) := hp
  obtain ⟨k, hk, rfl⟩ := List.mem_map.mp hp'
  have hklt : k < (genCustomers o now nC).length := List.mem_range.mp hk
  refine ⟨(genCustomers o now nC).getD k dfltCustomer, ?_, (mkPayment_customer_id ..).symm⟩
  rw [List.getD_eq_getElem _ _ hklt]
  exact List.getElem_mem hklt

/-- Witness for C6 at the sample entities. -/
theorem referential_integrity_witness :
    (∃ cu ∈ (generate_mock_data oZero 0 3 1).customers,
      cu.id = sampleContract.customer_id)
    ∧ (∃ cu ∈ (generate_mock_data oZero 0 3 1).customers,
      cu.id = samplePayment.customer_id)
    ∧ (∃ ct ∈ (generate_mock_data oZero 0 3 1).contracts,
      ct.id = sampleBill.contract_id)
    ∧ (∃ ct ∈ (generate_mock_data oZero 0 3 1).contracts,
      ct.id = sampleUsage.contract_id) :=
  ⟨(referential_integrity oZero 0 3 1 (by decide)).1 sampleContract sampleContract_mem,
    (referential_integrity oZero 0 3 1 (by decide)).2.1 samplePayment samplePayment_mem,
    (referential_integrity oZero 0 3 1 (by decide)).2.2.1 sampleBill sampleBill_mem,
    (referential_integrity oZero 0 3 1 (by decide)).2.2.2 sampleUsage sampleUsage_mem⟩

/-- C9 counterexample: the generated contract rate is rounded to 4 decimal
places, not 2 - under `oRate` the rate is 0.1834, which 2-decimal rounding
would change to 0.18. -/
theorem contract_rate_not_two_decimals :
    rateContract ∈ (generate_mock_data oRate 0 3 1).contracts
    ∧ pyRound rateContract.rate 2 ≠ rateContract.rate := by
  constructor
  · rw [generate_one_contracts]
    exact List.mem_singleton.mpr rfl
  · have hrate : rateContract.rate = 917 / 5000 := by
      show pyRound (pyUniform (18 / 100) (30 / 100) (oRate.rateU 0)) 4 = 917 / 5000
      have hu : pyUniform (18 / 100) (30 / 100) (oRate.rateU 0) = 917 / 5000 := by
        show (18 / 100 : ℚ) + Int.fract ((17 : ℚ) / 600) * (30 / 100 - 18 / 100) = 917 / 5000
        rw [← Int.self_sub_floor]
        norm_num
      rw [hu]
      show (rhe ((917 : ℚ) / 5000 * 10 ^ 4) : ℚ) / 10 ^ 4 = 917 / 5000
      have hm : (917 : ℚ) / 5000 * 10 ^ 4 = ((1834 : ℤ) : ℚ) := by norm_num
      rw [hm, rhe_intCast]
      norm_num
    rw [hrate]
    have hm2 : (917 : ℚ) / 5000 * 10 ^ 2 = 917 / 50 := by norm_num
    have hfl : ⌊(917 / 50 : ℚ)⌋ = 18 := by
      rw [Int.floor_eq_iff]
      norm_num
    have hfr : Int.fract ((917 : ℚ) / 50) < 1 / 2 := by
      rw [← Int.self_sub_floor, hfl]
      norm_num
    show (rhe ((917 : ℚ) / 5000 * 10 ^ 2) : ℚ) / 10 ^ 2 ≠ 917 / 5000
    rw [hm2]
    unfold rhe
    rw [if_pos hfr, hfl]
    norm_num

/-- C9 (amended): every per-bill charge field and total is a fixed point of
2-decimal rounding, and the contract rate is a fixed point of 4-decimal
rounding (it is rounded to 4 decimals, not 2). -/
theorem monetary_rounding (o : Oracle) (now : ℚ) (nC nO : Nat) (hn : 0 < nC) :
    (∀ b ∈ (generate_mock_data o now nC nO).billing_history, TwoDecimalBill b)
    ∧ (∀ c ∈ (generate_mock_data o now nC nO).contracts, pyRound c.rate 4 = c.rate) := by
  have hinv := generate_inv o now nO hn
  constructor
  · intro b hb
    have hb' : b ∈ (genAcc o now nC nO).bills := hb
    obtain ⟨e, g, t, ec, p, h1, h2, h3, h4, h5, h6, h7, h8, h9⟩ := (hinv.2.1 b hb').1
    exact ⟨by rw [h1, pyRound_idem], by rw [h2, pyRound_idem], by rw [h3, pyRound_idem],
      by rw [h4, pyRound_idem], by rw [h5, pyRound_idem], by rw [h6, pyRound_idem],
      by rw [h7, pyRound_idem], by rw [h8, pyRound_idem], by rw [h9, pyRound_idem]⟩
  · intro c hc
    have hc' : c ∈ (genAcc o now nC nO).contracts := hc
    obtain ⟨r, hr⟩ := ((hinv.1 c hc').1).2.2
    rw [hr, pyRound_idem]

/-- Witness for the amended C9. -/
theorem monetary_rounding_witness :
    TwoDecimalBill sampleBill
    ∧ pyRound sampleContract.rate 4 = sampleContract.rate :=
  ⟨(monetary_rounding oZero 0 3 1 (by decide)).1 sampleBill sampleBill_mem,
    (monetary_rounding oZero 0 3 1 (by decide)).2 sampleContract sampleContract_mem⟩

end BusinessLogic
